import Mathlib

/-!
Verification of the world-map enrichment and presentation pipeline.

The source is a React client component.  Its substantive logic is:
  * `dwaparaLookup` — a literal `Map` from modern region names to
    alternate-era names;
  * `enrichDataset` — a pure transform over a GeoJSON feature collection
    deriving `MODERN_NAME` and `DWAPARA_NAME` on every feature;
  * `loadDataset` — an async fetch whose continuation is guarded by a
    mutable `isSubscribed` flag set to `false` on effect cleanup;
  * the `WorldMap` render selector (initializing / error / loading / map);
  * `handleEachFeature` — tooltip binding and hover style handlers.

The embedding below models these value-semantically.  JavaScript `??`
(nullish coalescing) is modelled by `Option`: `none` stands for an absent
field or a `null`/`undefined` value, which `??` skips; any present string
value — the empty string included — is `some`.  Geometry and the other
fields of a feature preserved wholesale by object spread are abstracted
into a type parameter `γ`; the collection's non-`features` fields into
`ρ`; unknown extra property values into `π` (kept as a keyed list, so
that an absent property bag spreads to the empty bag).
-/

/-- The property bag of a feature (`DwaparaProperties` in the source):
three optional source-name fields, the two derived fields, and the
open-ended remainder of the bag. -/
structure DwaparaProperties (π : Type) where
  NAME_LONG : Option String
  ADMIN : Option String
  SOVEREIGNT : Option String
  DWAPARA_NAME : Option String
  MODERN_NAME : Option String
  extra : List (String × π)
deriving DecidableEq, Repr

/-- A GeoJSON feature: its property bag (possibly `null`), and `geometry`
standing for the geometry together with every other field that object
spread carries over unchanged. -/
structure DwaparaFeature (γ π : Type) where
  geometry : γ
  properties : Option (DwaparaProperties π)
deriving DecidableEq, Repr

/-- A GeoJSON feature collection: the feature list plus `rest`, standing
for the collection's other fields (`type`, `bbox`, …) preserved by
spread. -/
structure DwaparaFeatureCollection (γ ρ π : Type) where
  rest : ρ
  features : List (DwaparaFeature γ π)
deriving DecidableEq, Repr

/-- The entry list of the literal `new Map([...])` that builds
`dwaparaLookup`, in source order (duplicates included). -/
def dwaparaLookup : List (String × String) := [
  ("India", "Bharata Khanda"),
  ("Sri Lanka", "Lanka"),
  ("Pakistan", "Gandhara"),
  ("Afghanistan", "Kamboja"),
  ("Bangladesh", "Vanga"),
  ("Nepal", "Kirati Realm"),
  ("Bhutan", "Druk Yul"),
  ("China", "Mleccha Orient"),
  ("Myanmar", "Suvannabhumi"),
  ("Thailand", "Nagadipa"),
  ("Laos", "Ravana-gahvara"),
  ("Cambodia", "Kambuja Desa"),
  ("Vietnam", "Uluka Province"),
  ("Indonesia", "Dvipa Archipelago"),
  ("Malaysia", "Surparaka Reach"),
  ("Singapore", "Temasek Dvipa"),
  ("Japan", "Yamato Isles"),
  ("Mongolia", "Huna Steppe"),
  ("Russia", "Uttara Kuru"),
  ("Kazakhstan", "Saka Plateau"),
  ("Uzbekistan", "Tushara Realm"),
  ("Turkmenistan", "Parama Kamboja"),
  ("Iran", "Parsava Kingdom"),
  ("Iraq", "Madra Basin"),
  ("Syria", "Aratta Frontier"),
  ("Turkey", "Pahlava Reach"),
  ("Egypt", "Misra Desh"),
  ("Ethiopia", "Habesha Janapada"),
  ("Somalia", "Barbarika Coast"),
  ("Kenya", "Shakulya Plains"),
  ("Tanzania", "Matanga Plateau"),
  ("South Africa", "Hrasva Dwipa"),
  ("United States of America", "Pushkara Continent"),
  ("Canada", "Uttara Pushkara"),
  ("Mexico", "Maya Khanda"),
  ("Brazil", "Nila Varsha"),
  ("Argentina", "Hemanta Varsha"),
  ("Peru", "Garuda Andes"),
  ("Chile", "Sarpa Valley"),
  ("Bolivia", "Yaksha Highlands"),
  ("Colombia", "Kartika Basin"),
  ("Venezuela", "Bhaga Canopy"),
  ("United Kingdom", "Svarnadvipa Isles"),
  ("France", "Sindhuvisha Territory"),
  ("Spain", "Nagavanshi Coast"),
  ("Portugal", "Ratnakara Gate"),
  ("Germany", "Daityan Foothold"),
  ("Italy", "Vanara Peninsula"),
  ("Greece", "Yavana Polis"),
  ("Poland", "Kuru Outlands"),
  ("Ukraine", "Sindhava Plains"),
  ("Belarus", "Vasati Corridor"),
  ("Norway", "Deva Fjords"),
  ("Sweden", "Yaksha Tundra"),
  ("Finland", "Marut Tundra"),
  ("Iceland", "Shveta Dvipa"),
  ("Greenland", "Airavata Glacier"),
  ("Saudi Arabia", "Arabia Khanda"),
  ("United Arab Emirates", "Ratna Port"),
  ("Qatar", "Åšankha Harbor"),
  ("Bahrain", "Nagadipa Pearl"),
  ("Oman", "Sagara Gate"),
  ("Yemen", "Sabha Coast"),
  ("Israel", "Shurasena Corridor"),
  ("Jordan", "Nishada Marches"),
  ("Lebanon", "Vanara Ridge"),
  ("Morocco", "Ketumala Coast"),
  ("Algeria", "Ruru Expanse"),
  ("Tunisia", "Sudarshana Bend"),
  ("Libya", "Gandhara West"),
  ("Sudan", "Kush Desh"),
  ("South Sudan", "Shalya March"),
  ("Chad", "Yaksha Sands"),
  ("Niger", "Rishika Dunes"),
  ("Mali", "Bhima Basin"),
  ("Nigeria", "Anarta Delta"),
  ("Ghana", "Kuruvarsha"),
  ("Ivory Coast", "Duhkha Shore"),
  ("Cameroon", "Rakshasa Wilds"),
  ("Democratic Republic of the Congo", "Naga Rainforest"),
  ("Republic of the Congo", "Naga Littoral"),
  ("Angola", "Ketu Savannah"),
  ("Namibia", "Pampa Estuary"),
  ("Botswana", "Sattva Plains"),
  ("Zimbabwe", "Shiva Plateau"),
  ("Mozambique", "Sagara Estuary"),
  ("Madagascar", "Mahodaya Isle"),
  ("Australia", "Ajagara Continent"),
  ("New Zealand", "Sura Isles"),
  ("Papua New Guinea", "Yakshini Archipelago"),
  ("Philippines", "Nagapattinam Isles"),
  ("South Korea", "Agnivanshi Peninsula"),
  ("North Korea", "Prachya March"),
  ("Bhutan", "Druk Yul"),
  ("Iceland", "Shveta Dvipa")
]

/-- `Map.get` on a map built from an entry list: with duplicate keys the
later entry wins, so looking up means finding the last matching entry. -/
def mapGet (entries : List (String × String)) (key : String) : Option String :=
  (entries.reverse.find? (fun p => p.1 == key)).map Prod.snd

/-- The empty property bag, the result of spreading a `null`/`undefined`
`properties` object. -/
def emptyProperties (π : Type) : DwaparaProperties π :=
  { NAME_LONG := none, ADMIN := none, SOVEREIGNT := none,
    DWAPARA_NAME := none, MODERN_NAME := none, extra := [] }

/-- The body of the per-feature lambda inside `enrichDataset`, hoisted to
a named function: resolve `modernName` by the nullish-coalescing chain
`NAME_LONG ?? ADMIN ?? SOVEREIGNT ?? "Unknown Realm"`, resolve
`dwaparaName` by `dwaparaLookup.get(modernName) ?? modernName`, and emit
a new feature spreading the old one with the two derived fields set. -/
def enrichFeature {γ π : Type} (feature : DwaparaFeature γ π) : DwaparaFeature γ π :=
  let modernName :=
    (((feature.properties.bind DwaparaProperties.NAME_LONG).orElse
        (fun _ => feature.properties.bind DwaparaProperties.ADMIN)).orElse
      (fun _ => feature.properties.bind DwaparaProperties.SOVEREIGNT)).getD
      "Unknown Realm"
  let dwaparaName := (mapGet dwaparaLookup modernName).getD modernName
  { feature with
    properties := some
      { (feature.properties.getD (emptyProperties π)) with
        DWAPARA_NAME := some dwaparaName,
        MODERN_NAME := some modernName } }

/-- `enrichDataset`: map the per-feature enrichment over the collection's
features and spread the collection with the new feature list. -/
def enrichDataset {γ ρ π : Type} (collection : DwaparaFeatureCollection γ ρ π) :
    DwaparaFeatureCollection γ ρ π :=
  { collection with features := collection.features.map enrichFeature }

def indiaProps : DwaparaProperties Unit :=
  { emptyProperties Unit with ADMIN := some "India" }

def indiaFeature : DwaparaFeature Unit Unit :=
  { geometry := (), properties := some indiaProps }

example :
    (enrichFeature indiaFeature).properties.bind DwaparaProperties.DWAPARA_NAME
      = some "Bharata Khanda" := by decide

/-! ## Styles and hover handlers

`PathOptions` keeps the four fields the source's style literals set.
Numeric style values (`weight`, `fillOpacity`) are rationals, since the
literals are decimal (`2.5`, `0.22`, `0.38`). -/

structure PathOptions where
  color : String
  weight : ℚ
  fillColor : String
  fillOpacity : ℚ
deriving DecidableEq, Repr

def defaultStyle : PathOptions :=
  { color := "#38bdf8", weight := 1, fillColor := "#0ea5e9", fillOpacity := 0.22 }

/-- `hoverStyle` spreads `defaultStyle` and overrides weight and fill
opacity. -/
def hoverStyle : PathOptions :=
  { defaultStyle with weight := 2.5, fillOpacity := 0.38 }

/-- `featureStyle` is `useMemo(() => defaultStyle, [])`: the default
style itself. -/
def featureStyle : PathOptions := defaultStyle

/-- A mouse event on a feature layer, as seen by the two hover handlers
registered in `handleEachFeature`. -/
inductive HoverEvent where
  | mouseover
  | mouseout
deriving DecidableEq, Repr

/-- One handler dispatch on a layer whose current style is `s`:
`handleFeatureHover` calls `target.setStyle(hoverStyle)` and
`handleFeatureLeave` calls `target.setStyle(featureStyle)`.  Both style
objects assign all four fields, so Leaflet's merging `setStyle` amounts
to replacement here. -/
def stepHover (_s : PathOptions) : HoverEvent → PathOptions
  | HoverEvent.mouseover => hoverStyle
  | HoverEvent.mouseout => featureStyle

/-- A sequence of hover events applied in order to a layer starting at
style `s`. -/
def runHover (s : PathOptions) (events : List HoverEvent) : PathOptions :=
  events.foldl stepHover s

/-! ## Tooltip binding (`handleEachFeature`) -/

/-- `handleEachFeature`'s first line:
`feature.properties?.DWAPARA_NAME ?? 'Unnamed Dominion'`. -/
def boundDwaparaName {γ π : Type} (feature : DwaparaFeature γ π) : String :=
  (feature.properties.bind DwaparaProperties.DWAPARA_NAME).getD "Unnamed Dominion"

/-- `handleEachFeature`'s second line:
`feature.properties?.MODERN_NAME ?? dwaparaName`. -/
def boundModernName {γ π : Type} (feature : DwaparaFeature γ π) : String :=
  (feature.properties.bind DwaparaProperties.MODERN_NAME).getD (boundDwaparaName feature)

/-- The tooltip line list: `[dwaparaName]`, with
`` `Modern: ${modernName}` `` pushed when `modernName !== dwaparaName`. -/
def tooltipLines {γ π : Type} (feature : DwaparaFeature γ π) : List String :=
  let lines := [boundDwaparaName feature]
  if boundModernName feature ≠ boundDwaparaName feature then
    lines ++ ["Modern: " ++ boundModernName feature]
  else lines

/-- The bound tooltip text: `tooltipLines.join('\n')`. -/
def tooltipText {γ π : Type} (feature : DwaparaFeature γ π) : String :=
  String.intercalate "\n" (tooltipLines feature)

/-! ## Load lifecycle controller

The `WorldMap` component holds `dataset : Option collection` and
`error : Option String` state, plus the `isSubscribed` flag closed over
by `loadDataset`.  The continuation of the fetch is modelled as a single
resolution step on that state; the flag it reads is its value at the
time the continuation runs. -/

structure ControllerState (δ : Type) where
  dataset : Option δ
  error : Option String
  isSubscribed : Bool
deriving DecidableEq, Repr

/-- How the awaited fetch (and JSON decoding) can settle, as
distinguished by `loadDataset`:
  * `ok`: `response.ok` and the body decodes to a feature collection;
  * `notOk`: the response arrived with `!response.ok` — the code throws
    `` new Error(`Failed to load dataset: ${response.statusText}`) ``,
    caught by its own catch block;
  * `thrownError`: `fetch`/`response.json()` (or the enrichment) threw an
    `Error` instance carrying `message`;
  * `thrownNonError`: something other than an `Error` instance was
    thrown. -/
inductive FetchSettling (γ ρ π : Type) where
  | ok (raw : DwaparaFeatureCollection γ ρ π)
  | notOk (statusText : String)
  | thrownError (message : String)
  | thrownNonError
deriving DecidableEq, Repr

/-- The continuation of `loadDataset` after the awaited work settles:
every `setDataset`/`setError` call is guarded by `if (isSubscribed)`. -/
def resolveLoad {γ ρ π : Type} (s : ControllerState (DwaparaFeatureCollection γ ρ π)) :
    FetchSettling γ ρ π → ControllerState (DwaparaFeatureCollection γ ρ π)
  | FetchSettling.ok raw =>
      if s.isSubscribed then { s with dataset := some (enrichDataset raw) } else s
  | FetchSettling.notOk statusText =>
      if s.isSubscribed then
        { s with error := some ("Failed to load dataset: " ++ statusText) }
      else s
  | FetchSettling.thrownError message =>
      if s.isSubscribed then { s with error := some message } else s
  | FetchSettling.thrownNonError =>
      if s.isSubscribed then
        { s with error := some "Unknown error while loading dataset" }
      else s

/-- The effect cleanup: `isSubscribed = false`. -/
def detach {δ : Type} (s : ControllerState δ) : ControllerState δ :=
  { s with isSubscribed := false }

/-! ## Presentation shell -/

/-- The four mutually exclusive views `WorldMap` can return. -/
inductive WorldMapView (δ : Type) where
  | initializing
  | errorView (message : String)
  | loading
  | mapView (dataset : δ)
deriving DecidableEq, Repr

/-- JavaScript truthiness of the `error` state (`string | null`): truthy
iff non-null and non-empty. -/
def errorTruthy : Option String → Bool
  | none => false
  | some s => s ≠ ""

/-- The `WorldMap` render selector: `if (!isMounted) … if (error) …
if (!dataset) … else the map`. -/
def renderWorldMap {δ : Type} (isMounted : Bool) (error : Option String)
    (dataset : Option δ) : WorldMapView δ :=
  if isMounted = false then WorldMapView.initializing
  else if errorTruthy error then WorldMapView.errorView (error.getD "")
  else
    match dataset with
    | none => WorldMapView.loading
    | some d => WorldMapView.mapView d

/-! ## Spec-side definitions (refinement targets)

These two follow the wording of the specification, to be compared with
the source-derived `enrichFeature`. -/

/-- Modelled from the spec's words: `modernName` is the first of the
long-name field, the administrative field and the sovereignty field that
is present and non-null, else the sentinel `"Unknown Realm"`. -/
def specModernName {π : Type} (p : Option (DwaparaProperties π)) : String :=
  match p.bind DwaparaProperties.NAME_LONG with
  | some s => s
  | none =>
    match p.bind DwaparaProperties.ADMIN with
    | some s => s
    | none =>
      match p.bind DwaparaProperties.SOVEREIGNT with
      | some s => s
      | none => "Unknown Realm"

/-- Modelled from the spec's words: `alternateName` is the Naming
Table's value for the modern name when a mapping exists, else the modern
name itself. -/
def specAlternateName (modernName : String) : String :=
  match mapGet dwaparaLookup modernName with
  | some mapped => mapped
  | none => modernName

/-! ## Sample inputs used by witnesses and counterexamples -/

/-- A one-feature collection wrapping the India feature. -/
def indiaCollection : DwaparaFeatureCollection Unit Unit Unit :=
  { rest := (), features := [indiaFeature] }

/-- A feature whose long-name field is present but equal to the empty
string. -/
def emptyNameFeature : DwaparaFeature Unit Unit :=
  { geometry := (), properties := some
      { emptyProperties Unit with NAME_LONG := some "" } }

def emptyNameCollection : DwaparaFeatureCollection Unit Unit Unit :=
  { rest := (), features := [emptyNameFeature] }

/-- A feature that already carries a `DWAPARA_NAME` before enrichment. -/
def preNamedFeature : DwaparaFeature Unit Unit :=
  { geometry := (), properties := some
      { indiaProps with DWAPARA_NAME := some "Foo" } }

def preNamedCollection : DwaparaFeatureCollection Unit Unit Unit :=
  { rest := (), features := [preNamedFeature] }

/-- A feature with a `null` property bag, as it would reach the render
binder without enrichment. -/
def bareFeature : DwaparaFeature Unit Unit :=
  { geometry := (), properties := none }

/-- A detached controller state still in its loading shape. -/
def detachedLoadingState : ControllerState (DwaparaFeatureCollection Unit Unit Unit) :=
  { dataset := none, error := none, isSubscribed := false }

/-- A freshly activated controller state. -/
def subscribedLoadingState : ControllerState (DwaparaFeatureCollection Unit Unit Unit) :=
  { dataset := none, error := none, isSubscribed := true }

/-! ## Helper lemmas -/

/-- The nullish-coalescing chain in `enrichFeature` agrees with the
spec-worded priority resolution. -/
theorem coalesce_eq_specModernName {π : Type} (p : Option (DwaparaProperties π)) :
    (((p.bind DwaparaProperties.NAME_LONG).orElse
        (fun _ => p.bind DwaparaProperties.ADMIN)).orElse
      (fun _ => p.bind DwaparaProperties.SOVEREIGNT)).getD "Unknown Realm"
      = specModernName p := by
  unfold specModernName
  cases p.bind DwaparaProperties.NAME_LONG <;>
    cases p.bind DwaparaProperties.ADMIN <;>
      cases p.bind DwaparaProperties.SOVEREIGNT <;> rfl

/-- The lookup-with-identity-fallback in `enrichFeature` agrees with the
spec-worded alternate-name rule. -/
theorem lookupFallback_eq_specAlternateName (m : String) :
    (mapGet dwaparaLookup m).getD m = specAlternateName m := by
  unfold specAlternateName
  cases mapGet dwaparaLookup m <;> rfl

/-- Every table value is a non-empty string. -/
theorem dwaparaLookup_values_nonempty : ∀ p ∈ dwaparaLookup, p.2 ≠ "" := by
  decide

/-- A successful `mapGet` returns the value of an entry of the list with
the looked-up key. -/
theorem mapGet_mem {entries : List (String × String)} {k v : String}
    (h : mapGet entries k = some v) : (k, v) ∈ entries := by
  unfold mapGet at h
  cases hf : entries.reverse.find? (fun p => p.1 == k) with
  | none => rw [hf] at h; exact absurd h (by simp)
  | some p =>
    rw [hf] at h
    have hk : p.1 = k := by simpa using List.find?_some hf
    have hv : p.2 = v := by simpa using h
    have hmem : p ∈ entries := List.mem_reverse.mp (List.mem_of_find?_eq_some hf)
    rw [← hk, ← hv]
    simpa using hmem

/-- A successful lookup in the Naming Table yields a non-empty value. -/
theorem mapGet_dwapara_nonempty {m v : String}
    (h : mapGet dwaparaLookup m = some v) : v ≠ "" :=
  dwaparaLookup_values_nonempty (m, v) (mapGet_mem h)

/-- Tooltip helper: the first line is always the resolved dwapara
name. -/
theorem tooltipLines_head {γ π : Type} (f : DwaparaFeature γ π) :
    (tooltipLines f).head? = some (boundDwaparaName f) := by
  unfold tooltipLines
  by_cases hne : boundModernName f = boundDwaparaName f <;> simp [hne]

/-- Tooltip helper: two lines when the names differ. -/
theorem tooltipLines_of_ne {γ π : Type} {f : DwaparaFeature γ π}
    (hne : boundModernName f ≠ boundDwaparaName f) :
    tooltipLines f = [boundDwaparaName f, "Modern: " ++ boundModernName f] := by
  simp [tooltipLines, hne]

/-- Tooltip helper: a single line when the names agree. -/
theorem tooltipLines_of_eq {γ π : Type} {f : DwaparaFeature γ π}
    (heq : boundModernName f = boundDwaparaName f) :
    tooltipLines f = [boundDwaparaName f] := by
  simp [tooltipLines, heq]

/-- The derived fields of an enriched feature, in terms of the spec-side
resolvers. -/
theorem enrichFeature_derived {γ π : Type} (f : DwaparaFeature γ π) :
    (enrichFeature f).properties.bind DwaparaProperties.MODERN_NAME
        = some (specModernName f.properties) ∧
      (enrichFeature f).properties.bind DwaparaProperties.DWAPARA_NAME
        = some (specAlternateName (specModernName f.properties)) := by
  constructor <;>
    simp [enrichFeature, coalesce_eq_specModernName,
      lookupFallback_eq_specAlternateName]

/-! ## Claims -/

/-- C1: the Enrichment Transform sets `modernName` to the first
present-and-non-null of `NAME_LONG`, `ADMIN`, `SOVEREIGNT`, else
`"Unknown Realm"`, and sets `alternateName` to the Naming Table's value
for that modern name when a mapping exists, else to the modern name; in
particular `{ADMIN: "India"}` with no `NAME_LONG` is enriched with
`modernName = "India"` and `alternateName = "Bharata Khanda"`. -/
theorem c1_enrichment_resolution {γ ρ π : Type}
    (c : DwaparaFeatureCollection γ ρ π) (f : DwaparaFeature γ π)
    (h : f ∈ c.features) :
    enrichFeature f ∈ (enrichDataset c).features ∧
    (enrichFeature f).properties.bind DwaparaProperties.MODERN_NAME
      = some (specModernName f.properties) ∧
    (enrichFeature f).properties.bind DwaparaProperties.DWAPARA_NAME
      = some (specAlternateName (specModernName f.properties)) ∧
    (enrichFeature indiaFeature).properties.bind DwaparaProperties.MODERN_NAME
      = some "India" ∧
    (enrichFeature indiaFeature).properties.bind DwaparaProperties.DWAPARA_NAME
      = some "Bharata Khanda" := by
  refine ⟨?_, (enrichFeature_derived f).1, (enrichFeature_derived f).2, ?_, ?_⟩
  · exact List.mem_map_of_mem enrichFeature h
  · decide
  · decide

/-- Witness for C1 at the India feature inside its one-feature
collection. -/
theorem c1_enrichment_resolution_witness :
    indiaFeature ∈ indiaCollection.features ∧
    (enrichFeature indiaFeature ∈ (enrichDataset indiaCollection).features ∧
      (enrichFeature indiaFeature).properties.bind DwaparaProperties.MODERN_NAME
        = some (specModernName indiaFeature.properties) ∧
      (enrichFeature indiaFeature).properties.bind DwaparaProperties.DWAPARA_NAME
        = some (specAlternateName (specModernName indiaFeature.properties)) ∧
      (enrichFeature indiaFeature).properties.bind DwaparaProperties.MODERN_NAME
        = some "India" ∧
      (enrichFeature indiaFeature).properties.bind DwaparaProperties.DWAPARA_NAME
        = some "Bharata Khanda") :=
  ⟨by decide, c1_enrichment_resolution indiaCollection indiaFeature (by decide)⟩

/-- C2: once the subscribed flag is false (in particular, after the
cleanup `detach` ran before the fetch settled), resolving the fetch —
whatever its outcome — changes neither the dataset state nor the error
state: the controller state is unchanged. -/
theorem c2_detach_discards {γ ρ π : Type}
    (s : ControllerState (DwaparaFeatureCollection γ ρ π))
    (r : FetchSettling γ ρ π) (h : s.isSubscribed = false) :
    resolveLoad s r = s ∧ resolveLoad (detach s) r = detach s := by
  constructor <;> cases r <;> simp [resolveLoad, detach, h]

/-- Witness for C2 at a detached loading state and a successful fetch of
the India collection. -/
theorem c2_detach_discards_witness :
    detachedLoadingState.isSubscribed = false ∧
    (resolveLoad detachedLoadingState (FetchSettling.ok indiaCollection)
        = detachedLoadingState ∧
      resolveLoad (detach detachedLoadingState) (FetchSettling.ok indiaCollection)
        = detach detachedLoadingState) :=
  ⟨rfl, c2_detach_discards detachedLoadingState (FetchSettling.ok indiaCollection) rfl⟩

/-- C3 counterexample: while subscribed, a thrown `Error` carrying the
empty message sets the error state to `""`, which is not a non-empty
message, and the shell — `""` being falsy — then renders the loading
view, not the error view. -/
theorem c3_error_message_counterexample :
    (resolveLoad subscribedLoadingState (FetchSettling.thrownError "")).error
        = some "" ∧
    "".length = 0 ∧
    renderWorldMap true (some "")
        (none : Option (DwaparaFeatureCollection Unit Unit Unit))
      = WorldMapView.loading := by
  refine ⟨rfl, rfl, ?_⟩
  decide

/-- C3 amended: while subscribed, every failure outcome transitions to
the error state without touching the dataset: a non-success status
yields `"Failed to load dataset: " ++ statusText` (always non-empty), a
thrown `Error` yields its own message, and a thrown non-`Error` yields
the generic fallback (non-empty); provided the stored message is
non-empty, the shell renders it verbatim instead of the map. -/
theorem c3_error_reporting_amended {γ ρ π δ : Type}
    (s : ControllerState (DwaparaFeatureCollection γ ρ π))
    (statusText message : String) (d : Option δ)
    (h : s.isSubscribed = true) :
    (resolveLoad s (FetchSettling.notOk statusText)).error
        = some ("Failed to load dataset: " ++ statusText) ∧
    (resolveLoad s (FetchSettling.notOk statusText)).dataset = s.dataset ∧
    ("Failed to load dataset: " ++ statusText) ≠ "" ∧
    (resolveLoad s (FetchSettling.thrownError message)).error = some message ∧
    (resolveLoad s (FetchSettling.thrownError message)).dataset = s.dataset ∧
    (resolveLoad s FetchSettling.thrownNonError).error
        = some "Unknown error while loading dataset" ∧
    (resolveLoad s FetchSettling.thrownNonError).dataset = s.dataset ∧
    ("Unknown error while loading dataset" : String) ≠ "" ∧
    (message ≠ "" →
      renderWorldMap true (some message) d = WorldMapView.errorView message) := by
  refine ⟨by simp [resolveLoad, h], by simp [resolveLoad, h], ?_,
    by simp [resolveLoad, h], by simp [resolveLoad, h],
    by simp [resolveLoad, h], by simp [resolveLoad, h], by decide, ?_⟩
  · intro hcon
    have hlen := congrArg String.length hcon
    simp [String.length_append] at hlen
    exact absurd hlen.1 (by decide)
  · intro hmsg
    simp [renderWorldMap, errorTruthy, hmsg]

/-- Witness for C3 (amended) at a subscribed loading state, status text
`"Not Found"`, thrown message `"boom"`, and no dataset. -/
theorem c3_error_reporting_amended_witness :
    subscribedLoadingState.isSubscribed = true ∧
    ((resolveLoad subscribedLoadingState (FetchSettling.notOk "Not Found")).error
        = some ("Failed to load dataset: " ++ "Not Found") ∧
    (resolveLoad subscribedLoadingState (FetchSettling.notOk "Not Found")).dataset
        = subscribedLoadingState.dataset ∧
    ("Failed to load dataset: " ++ "Not Found") ≠ "" ∧
    (resolveLoad subscribedLoadingState (FetchSettling.thrownError "boom")).error
        = some "boom" ∧
    (resolveLoad subscribedLoadingState (FetchSettling.thrownError "boom")).dataset
        = subscribedLoadingState.dataset ∧
    (resolveLoad subscribedLoadingState FetchSettling.thrownNonError).error
        = some "Unknown error while loading dataset" ∧
    (resolveLoad subscribedLoadingState FetchSettling.thrownNonError).dataset
        = subscribedLoadingState.dataset ∧
    ("Unknown error while loading dataset" : String) ≠ "" ∧
    (("boom" : String) ≠ "" →
      renderWorldMap true (some "boom")
          (none : Option (DwaparaFeatureCollection Unit Unit Unit))
        = WorldMapView.errorView "boom")) :=
  ⟨rfl, c3_error_reporting_amended subscribedLoadingState "Not Found" "boom" none rfl⟩

/-- C4 counterexample: a feature whose `NAME_LONG` is present but equal
to the empty string is enriched with the empty alternate name — the
enriched output does not always have a non-empty `alternateName`. -/
theorem c4_nonempty_alternate_counterexample :
    (enrichDataset emptyNameCollection).features.map
        (fun f => f.properties.bind DwaparaProperties.DWAPARA_NAME)
      = [some ""] := by
  decide

/-- C4 amended: for every input feature, the enriched feature's
`alternateName` equals its `modernName` whenever the Naming Table has no
mapping for it (unconditionally), and `alternateName` is non-empty
whenever the resolved `modernName` is non-empty; a name field present
but equal to the empty string resolves to an empty `modernName` and
hence an empty `alternateName`. -/
theorem c4_alternate_name_amended {γ ρ π : Type}
    (c : DwaparaFeatureCollection γ ρ π) (f : DwaparaFeature γ π)
    (h : f ∈ c.features) (m alt : String)
    (hm : (enrichFeature f).properties.bind DwaparaProperties.MODERN_NAME = some m)
    (ha : (enrichFeature f).properties.bind DwaparaProperties.DWAPARA_NAME = some alt) :
    enrichFeature f ∈ (enrichDataset c).features ∧
    (mapGet dwaparaLookup m = none → alt = m) ∧
    (m ≠ "" → alt ≠ "") := by
  obtain ⟨hm2, ha2⟩ := enrichFeature_derived f
  have hms : specModernName f.properties = m :=
    Option.some.inj (hm2.symm.trans hm)
  have halt : alt = specAlternateName m := by
    rw [← hms]
    exact Option.some.inj (ha.symm.trans ha2)
  refine ⟨List.mem_map_of_mem enrichFeature h, ?_, ?_⟩
  · intro hnone
    rw [halt]
    simp [specAlternateName, hnone]
  · intro hne
    cases hget : mapGet dwaparaLookup m with
    | none =>
      rw [halt]
      simpa [specAlternateName, hget] using hne
    | some v =>
      rw [halt]
      simpa [specAlternateName, hget] using mapGet_dwapara_nonempty hget

/-- Witness for C4 (amended) at the India feature inside its
collection. -/
theorem c4_alternate_name_amended_witness :
    indiaFeature ∈ indiaCollection.features ∧
    (enrichFeature indiaFeature).properties.bind DwaparaProperties.MODERN_NAME
        = some "India" ∧
    (enrichFeature indiaFeature).properties.bind DwaparaProperties.DWAPARA_NAME
        = some "Bharata Khanda" ∧
    (enrichFeature indiaFeature ∈ (enrichDataset indiaCollection).features ∧
      (mapGet dwaparaLookup "India" = none → "Bharata Khanda" = "India") ∧
      (("India" : String) ≠ "" → ("Bharata Khanda" : String) ≠ "")) :=
  ⟨by decide, by decide, by decide,
    c4_alternate_name_amended indiaCollection indiaFeature (by decide)
      "India" "Bharata Khanda" (by decide) (by decide)⟩

/-- Per-feature frame lemma: enrichment preserves the geometry, the
three source-name fields, and the extra property entries (an absent bag
spreading to the empty bag). -/
theorem enrichFeature_preserves {γ π : Type} (f : DwaparaFeature γ π) :
    (enrichFeature f).geometry = f.geometry ∧
    (enrichFeature f).properties.bind DwaparaProperties.NAME_LONG
        = f.properties.bind DwaparaProperties.NAME_LONG ∧
    (enrichFeature f).properties.bind DwaparaProperties.ADMIN
        = f.properties.bind DwaparaProperties.ADMIN ∧
    (enrichFeature f).properties.bind DwaparaProperties.SOVEREIGNT
        = f.properties.bind DwaparaProperties.SOVEREIGNT ∧
    ((enrichFeature f).properties.map DwaparaProperties.extra).getD []
        = (f.properties.map DwaparaProperties.extra).getD [] := by
  cases f with
  | mk g p => cases p <;> simp [enrichFeature, emptyProperties]

/-- C5: the Enrichment Transform is a total function: it never fails
(being a total Lean function on collections), the output feature list
has exactly the input's length, and the feature at every index of the
output is the enrichment of the feature at the same index of the input
(same order, no feature dropped). -/
theorem c5_total_length_order {γ ρ π : Type}
    (c : DwaparaFeatureCollection γ ρ π) (i : Nat) :
    (enrichDataset c).features.length = c.features.length ∧
    (enrichDataset c).features[i]? = (c.features[i]?).map enrichFeature := by
  constructor
  · simp [enrichDataset]
  · simp [enrichDataset]

/-- C6 counterexample: a feature that already carries
`DWAPARA_NAME = "Foo"` does not keep that original property in the
enriched output — it is overwritten by the derived value. -/
theorem c6_frame_counterexample :
    preNamedFeature.properties.bind DwaparaProperties.DWAPARA_NAME = some "Foo" ∧
    (enrichDataset preNamedCollection).features.map
        (fun f => f.properties.bind DwaparaProperties.DWAPARA_NAME)
      = [some "Bharata Khanda"] := by
  constructor
  · decide
  · decide

/-- C6 amended: the transform is modelled value-semantically (it is a
pure function, so the input value is unchanged; object identity and
aliasing are outside the model), and at every index the output feature
carries the input feature's geometry, its three source-name fields, and
its extra properties unchanged, while the two derived fields
`DWAPARA_NAME` and `MODERN_NAME` are overwritten with the derived
values; the collection's non-`features` fields are preserved. -/
theorem c6_frame_amended {γ ρ π : Type}
    (c : DwaparaFeatureCollection γ ρ π) (i : Nat) :
    (enrichDataset c).rest = c.rest ∧
    ((enrichDataset c).features[i]?).map DwaparaFeature.geometry
        = (c.features[i]?).map DwaparaFeature.geometry ∧
    ((enrichDataset c).features[i]?).map
        (fun f => f.properties.bind DwaparaProperties.NAME_LONG)
      = (c.features[i]?).map
          (fun f => f.properties.bind DwaparaProperties.NAME_LONG) ∧
    ((enrichDataset c).features[i]?).map
        (fun f => f.properties.bind DwaparaProperties.ADMIN)
      = (c.features[i]?).map
          (fun f => f.properties.bind DwaparaProperties.ADMIN) ∧
    ((enrichDataset c).features[i]?).map
        (fun f => f.properties.bind DwaparaProperties.SOVEREIGNT)
      = (c.features[i]?).map
          (fun f => f.properties.bind DwaparaProperties.SOVEREIGNT) ∧
    ((enrichDataset c).features[i]?).map
        (fun f => (f.properties.map DwaparaProperties.extra).getD [])
      = (c.features[i]?).map
          (fun f => (f.properties.map DwaparaProperties.extra).getD []) ∧
    ((enrichDataset c).features[i]?).map
        (fun f => f.properties.bind DwaparaProperties.MODERN_NAME)
      = (c.features[i]?).map
          (fun f => some (specModernName f.properties)) ∧
    ((enrichDataset c).features[i]?).map
        (fun f => f.properties.bind DwaparaProperties.DWAPARA_NAME)
      = (c.features[i]?).map
          (fun f => some (specAlternateName (specModernName f.properties))) := by
  refine ⟨rfl, ?_, ?_, ?_, ?_, ?_, ?_, ?_⟩ <;>
    · simp only [enrichDataset, List.getElem?_map]
      cases c.features[i]? with
      | none => rfl
      | some f =>
        simp [(enrichFeature_preserves f).1, (enrichFeature_preserves f).2.1,
          (enrichFeature_preserves f).2.2.1, (enrichFeature_preserves f).2.2.2.1,
          (enrichFeature_preserves f).2.2.2.2,
          (enrichFeature_derived f).1, (enrichFeature_derived f).2]

/-- C7: the Enrichment Transform is idempotent — applied to its own
output it returns that output unchanged, derived fields and all other
data included. -/
theorem c7_idempotent {γ ρ π : Type} (c : DwaparaFeatureCollection γ ρ π) :
    enrichDataset (enrichDataset c) = enrichDataset c := by
  have hf : (enrichFeature ∘ enrichFeature :
      DwaparaFeature γ π → DwaparaFeature γ π) = enrichFeature := by
    funext f
    cases f with
    | mk g p => cases p <;> rfl
  simp [enrichDataset, List.map_map, hf]

/-- C8: for every feature of an enriched collection, both derived names
are present, the bound tooltip's first line is the alternate name
(`DWAPARA_NAME`), a second line `"Modern: <modernName>"` is bound
exactly when the modern name differs from the alternate name, and the
tooltip collapses to the single alternate-name line when they agree; the
bound text joins the lines with a newline. -/
theorem c8_tooltip_lines {γ ρ π : Type}
    (c : DwaparaFeatureCollection γ ρ π) (f : DwaparaFeature γ π)
    (h : f ∈ (enrichDataset c).features) :
    f.properties.bind DwaparaProperties.DWAPARA_NAME
        = some (boundDwaparaName f) ∧
    f.properties.bind DwaparaProperties.MODERN_NAME
        = some (boundModernName f) ∧
    (tooltipLines f).head? = some (boundDwaparaName f) ∧
    (boundModernName f ≠ boundDwaparaName f →
      tooltipLines f = [boundDwaparaName f, "Modern: " ++ boundModernName f]) ∧
    (boundModernName f = boundDwaparaName f →
      tooltipLines f = [boundDwaparaName f]) ∧
    tooltipText f = String.intercalate "\n" (tooltipLines f) := by
  have hmem : ∃ g ∈ c.features, enrichFeature g = f := by
    simpa [enrichDataset] using h
  obtain ⟨g, -, rfl⟩ := hmem
  obtain ⟨hm, ha⟩ := enrichFeature_derived g
  refine ⟨?_, ?_, tooltipLines_head _, fun hne => tooltipLines_of_ne hne,
    fun heq => tooltipLines_of_eq heq, rfl⟩
  · rw [ha]
    simp [boundDwaparaName, ha]
  · rw [hm]
    simp [boundModernName, hm]

/-- Witness for C8 at the enriched India feature. -/
theorem c8_tooltip_lines_witness :
    enrichFeature indiaFeature ∈ (enrichDataset indiaCollection).features ∧
    ((enrichFeature indiaFeature).properties.bind DwaparaProperties.DWAPARA_NAME
        = some (boundDwaparaName (enrichFeature indiaFeature)) ∧
    (enrichFeature indiaFeature).properties.bind DwaparaProperties.MODERN_NAME
        = some (boundModernName (enrichFeature indiaFeature)) ∧
    (tooltipLines (enrichFeature indiaFeature)).head?
        = some (boundDwaparaName (enrichFeature indiaFeature)) ∧
    (boundModernName (enrichFeature indiaFeature)
        ≠ boundDwaparaName (enrichFeature indiaFeature) →
      tooltipLines (enrichFeature indiaFeature)
        = [boundDwaparaName (enrichFeature indiaFeature),
           "Modern: " ++ boundModernName (enrichFeature indiaFeature)]) ∧
    (boundModernName (enrichFeature indiaFeature)
        = boundDwaparaName (enrichFeature indiaFeature) →
      tooltipLines (enrichFeature indiaFeature)
        = [boundDwaparaName (enrichFeature indiaFeature)]) ∧
    tooltipText (enrichFeature indiaFeature)
        = String.intercalate "\n" (tooltipLines (enrichFeature indiaFeature))) :=
  ⟨by decide, c8_tooltip_lines indiaCollection (enrichFeature indiaFeature) (by decide)⟩

/-- C9: hover-enter followed by hover-exit restores exactly the default
style; the handlers are idempotent and symmetric — any event sequence
ending in a leave yields the default style and any sequence ending in an
enter yields the emphasized style, which keeps the default colors and
sets weight `2.5` and fill opacity `0.38`. -/
theorem c9_hover_symmetry :
    (∀ s : PathOptions,
        stepHover (stepHover s HoverEvent.mouseover) HoverEvent.mouseout
          = defaultStyle) ∧
    (∀ (s : PathOptions) (events : List HoverEvent),
        runHover s (events ++ [HoverEvent.mouseout]) = defaultStyle) ∧
    (∀ (s : PathOptions) (events : List HoverEvent),
        runHover s (events ++ [HoverEvent.mouseover]) = hoverStyle) ∧
    featureStyle = defaultStyle ∧
    hoverStyle.color = defaultStyle.color ∧
    hoverStyle.fillColor = defaultStyle.fillColor ∧
    hoverStyle.weight = 2.5 ∧
    hoverStyle.fillOpacity = 0.38 := by
  refine ⟨fun s => rfl, ?_, ?_, rfl, rfl, rfl, rfl, rfl⟩ <;>
    · intro s events
      simp [runHover, List.foldl_append, stepHover, featureStyle]

/-- C10: a feature reaching the render binder without a `DWAPARA_NAME`
gets the fallback first line `"Unnamed Dominion"`; when `MODERN_NAME` is
also absent the modern name defaults to the same fallback and the
tooltip is exactly that one line. -/
theorem c10_unenriched_fallback {γ π : Type} (f : DwaparaFeature γ π)
    (h : f.properties.bind DwaparaProperties.DWAPARA_NAME = none) :
    boundDwaparaName f = "Unnamed Dominion" ∧
    (tooltipLines f).head? = some "Unnamed Dominion" ∧
    (f.properties.bind DwaparaProperties.MODERN_NAME = none →
      boundModernName f = "Unnamed Dominion" ∧
      tooltipLines f = ["Unnamed Dominion"]) := by
  have hd : boundDwaparaName f = "Unnamed Dominion" := by
    simp [boundDwaparaName, h]
  refine ⟨hd, ?_, ?_⟩
  · rw [tooltipLines_head, hd]
  · intro hmod
    have hmx : boundModernName f = "Unnamed Dominion" := by
      simp [boundModernName, hmod, hd]
    refine ⟨hmx, ?_⟩
    rw [tooltipLines_of_eq (hmx.trans hd.symm), hd]

/-- Witness for C10 at a feature with a `null` property bag. -/
theorem c10_unenriched_fallback_witness :
    bareFeature.properties.bind DwaparaProperties.DWAPARA_NAME = none ∧
    (boundDwaparaName bareFeature = "Unnamed Dominion" ∧
      (tooltipLines bareFeature).head? = some "Unnamed Dominion" ∧
      (bareFeature.properties.bind DwaparaProperties.MODERN_NAME = none →
        boundModernName bareFeature = "Unnamed Dominion" ∧
        tooltipLines bareFeature = ["Unnamed Dominion"])) :=
  ⟨rfl, c10_unenriched_fallback bareFeature rfl⟩
